import Mathlib

/-!
Shallow embedding of the LMKD control-packet codec from `include/lmkd.h`.

Modelling conventions:
* A C `int` on the wire is a 32-bit pattern, modelled as a `Nat` taken
  modulo `2^32` where the C code converts through `htonl`/`ntohl`.
* `htonl`/`ntohl` are modelled for a little-endian host (Android targets),
  i.e. as a 32-bit byte swap after truncation to 32 bits.
* `LMKD_CTRL_PACKET` is a C array of `CTRL_PACKET_MAX_SIZE / 4 = 13` ints;
  it is modelled as a total map `Nat → Nat` from slot index to stored
  pattern so that out-of-bounds accesses of the C code are expressible.
* C structs become Lean structures with `Nat` pattern fields; C enums
  become named `Nat` constants with the values the C standard assigns.
* Functions that mutate a caller-supplied buffer/struct return the updated
  value; functions returning a byte count return it alongside.
-/

namespace Lmkd

/-- Byte swap of a 32-bit value (the little-endian `htonl`/`ntohl` kernel). -/
def bswap32 (x : Nat) : Nat :=
  x % 256 * 16777216 + x / 256 % 256 * 65536 + x / 65536 % 256 * 256 + x / 16777216 % 256

/-- Host-to-network conversion of a 32-bit pattern (little-endian host). -/
def htonl (x : Nat) : Nat := bswap32 (x % 4294967296)

/-- Network-to-host conversion of a 32-bit pattern (little-endian host). -/
def ntohl (x : Nat) : Nat := bswap32 (x % 4294967296)

/-- Pointwise update of a map, used for C array / struct-array stores. -/
def upd {α : Type} (f : Nat → α) (i : Nat) (v : α) : Nat → α :=
  fun j => if j = i then v else f j

/-- `enum lmk_cmd` values, in declaration order starting at 0. -/
def LMK_TARGET : Nat := 0

def LMK_PROCPRIO : Nat := 1

def LMK_PROCREMOVE : Nat := 2

def LMK_PROCPURGE : Nat := 3

def LMK_GETKILLCNT : Nat := 4

def LMK_SUBSCRIBE : Nat := 5

def LMK_PROCKILL : Nat := 6

def LMK_UPDATE_PROPS : Nat := 7

def LMK_STAT_KILL_OCCURRED : Nat := 8

def LMK_START_MONITORING : Nat := 9

def LMK_BOOT_COMPLETED : Nat := 10

def LMK_PROCS_PRIO : Nat := 11

/-- `#define MAX_TARGETS 6` -/
def MAX_TARGETS : Nat := 6

/-- `#define CTRL_PACKET_MAX_SIZE (sizeof(int) * (MAX_TARGETS * 2 + 1))` -/
def CTRL_PACKET_MAX_SIZE : Nat := 4 * (MAX_TARGETS * 2 + 1)

/-- Number of int slots of `LMKD_CTRL_PACKET` (`CTRL_PACKET_MAX_SIZE / sizeof(int)`). -/
def CTRL_PACKET_SLOT_COUNT : Nat := CTRL_PACKET_MAX_SIZE / 4

/-- `typedef int LMKD_CTRL_PACKET[...]`, as a total slot map (see header note). -/
def LMKD_CTRL_PACKET : Type := Nat → Nat

/-- `lmkd_pack_get_cmd`: read slot 0 and convert from network byte order. -/
def lmkd_pack_get_cmd (pack : LMKD_CTRL_PACKET) : Nat :=
  ntohl (pack 0)

/-- `struct lmk_target` -/
structure lmk_target where
  minfree : Nat
  oom_adj_score : Nat
deriving DecidableEq, Repr

/-- `lmkd_pack_get_target`: read the `target_idx`-th (minfree, oom_adj_score) pair. -/
def lmkd_pack_get_target (packet : LMKD_CTRL_PACKET) (target_idx : Nat) : lmk_target :=
  { minfree := ntohl (packet (target_idx * 2 + 1))
    oom_adj_score := ntohl (packet (target_idx * 2 + 2)) }

/-- The `while (target_cnt)` loop body of `lmkd_pack_set_target`: write each
target's two fields at consecutive slots, returning the buffer and final
`idx`.  The C array plus count is modelled by the list of targets. -/
def set_target_loop (targets : List lmk_target) (packet : LMKD_CTRL_PACKET) (idx : Nat) :
    LMKD_CTRL_PACKET × Nat :=
  match targets with
  | [] => (packet, idx)
  | t :: rest =>
      set_target_loop rest
        (upd (upd packet idx (htonl t.minfree)) (idx + 1) (htonl t.oom_adj_score)) (idx + 2)

/-- `lmkd_pack_set_target`: write `LMK_TARGET` at slot 0 then the target pairs;
return the updated buffer and `idx * sizeof(int)` bytes. -/
def lmkd_pack_set_target (packet : LMKD_CTRL_PACKET) (targets : List lmk_target) :
    LMKD_CTRL_PACKET × Nat :=
  let r := set_target_loop targets (upd packet 0 (htonl LMK_TARGET)) 1
  (r.1, r.2 * 4)

/-- `enum proc_type` values. -/
def PROC_TYPE_FIRST : Nat := 0

def PROC_TYPE_APP : Nat := 0

def PROC_TYPE_SERVICE : Nat := 1

def PROC_TYPE_COUNT : Nat := 2

/-- `struct lmk_procprio` (pid, uid, oomadj, ptype as 32-bit patterns). -/
structure lmk_procprio where
  pid : Nat
  uid : Nat
  oomadj : Nat
  ptype : Nat
deriving DecidableEq, Repr

/-- `#define LMK_PROCPRIO_FIELD_COUNT 4` -/
def LMK_PROCPRIO_FIELD_COUNT : Nat := 4

/-- `#define LMK_PROCPRIO_SIZE (LMK_PROCPRIO_FIELD_COUNT * sizeof(int))` -/
def LMK_PROCPRIO_SIZE : Nat := LMK_PROCPRIO_FIELD_COUNT * 4

/-- `lmkd_pack_get_procprio`: read pid/uid/oomadj from slots 1-3; read ptype
from slot 4 only when `field_count > 3`, else default `PROC_TYPE_APP`.
`field_count` is a C `int`, hence `Int`. -/
def lmkd_pack_get_procprio (packet : LMKD_CTRL_PACKET) (field_count : Int) : lmk_procprio :=
  { pid := ntohl (packet 1)
    uid := ntohl (packet 2)
    oomadj := ntohl (packet 3)
    ptype := if field_count > 3 then ntohl (packet 4) else PROC_TYPE_APP }

/-- `lmkd_pack_set_procprio`: write cmd and all four fields, return 20 bytes. -/
def lmkd_pack_set_procprio (packet : LMKD_CTRL_PACKET) (params : lmk_procprio) :
    LMKD_CTRL_PACKET × Nat :=
  (upd (upd (upd (upd (upd packet 0 (htonl LMK_PROCPRIO)) 1 (htonl params.pid))
      2 (htonl params.uid)) 3 (htonl params.oomadj)) 4 (htonl params.ptype),
   5 * 4)

/-- `struct lmk_procremove` -/
structure lmk_procremove where
  pid : Nat
deriving DecidableEq, Repr

/-- `lmkd_pack_get_procremove` -/
def lmkd_pack_get_procremove (packet : LMKD_CTRL_PACKET) : lmk_procremove :=
  { pid := ntohl (packet 1) }

/-- `lmkd_pack_set_procremove` -/
def lmkd_pack_set_procremove (packet : LMKD_CTRL_PACKET) (params : lmk_procremove) :
    LMKD_CTRL_PACKET × Nat :=
  (upd (upd packet 0 (htonl LMK_PROCREMOVE)) 1 (htonl params.pid), 2 * 4)

/-- `lmkd_pack_set_procpurge` -/
def lmkd_pack_set_procpurge (packet : LMKD_CTRL_PACKET) : LMKD_CTRL_PACKET × Nat :=
  (upd packet 0 (htonl LMK_PROCPURGE), 4)

/-- `struct lmk_getkillcnt` -/
structure lmk_getkillcnt where
  min_oomadj : Nat
  max_oomadj : Nat
deriving DecidableEq, Repr

/-- `lmkd_pack_get_getkillcnt` -/
def lmkd_pack_get_getkillcnt (packet : LMKD_CTRL_PACKET) : lmk_getkillcnt :=
  { min_oomadj := ntohl (packet 1), max_oomadj := ntohl (packet 2) }

/-- `lmkd_pack_set_getkillcnt` -/
def lmkd_pack_set_getkillcnt (packet : LMKD_CTRL_PACKET) (params : lmk_getkillcnt) :
    LMKD_CTRL_PACKET × Nat :=
  (upd (upd (upd packet 0 (htonl LMK_GETKILLCNT)) 1 (htonl params.min_oomadj))
      2 (htonl params.max_oomadj),
   3 * 4)

/-- `lmkd_pack_set_getkillcnt_repl` -/
def lmkd_pack_set_getkillcnt_repl (packet : LMKD_CTRL_PACKET) (kill_cnt : Nat) :
    LMKD_CTRL_PACKET × Nat :=
  (upd (upd packet 0 (htonl LMK_GETKILLCNT)) 1 (htonl kill_cnt), 2 * 4)

/-- `enum async_event_type` values. -/
def LMK_ASYNC_EVENT_FIRST : Nat := 0

def LMK_ASYNC_EVENT_KILL : Nat := 0

def LMK_ASYNC_EVENT_STAT : Nat := 1

def LMK_ASYNC_EVENT_COUNT : Nat := 2

/-- `struct lmk_subscribe` -/
structure lmk_subscribe where
  evt_type : Nat
deriving DecidableEq, Repr

/-- `lmkd_pack_get_subscribe` -/
def lmkd_pack_get_subscribe (packet : LMKD_CTRL_PACKET) : lmk_subscribe :=
  { evt_type := ntohl (packet 1) }

/-- `lmkd_pack_set_subscribe` -/
def lmkd_pack_set_subscribe (packet : LMKD_CTRL_PACKET) (evt_type : Nat) :
    LMKD_CTRL_PACKET × Nat :=
  (upd (upd packet 0 (htonl LMK_SUBSCRIBE)) 1 (htonl evt_type), 2 * 4)

/-- `lmkd_pack_set_prockills` -/
def lmkd_pack_set_prockills (packet : LMKD_CTRL_PACKET) (pid uid : Nat) :
    LMKD_CTRL_PACKET × Nat :=
  (upd (upd (upd packet 0 (htonl LMK_PROCKILL)) 1 (htonl pid)) 2 (htonl uid), 3 * 4)

/-- `lmkd_pack_set_update_props` -/
def lmkd_pack_set_update_props (packet : LMKD_CTRL_PACKET) : LMKD_CTRL_PACKET × Nat :=
  (upd packet 0 (htonl LMK_UPDATE_PROPS), 4)

/-- `lmkd_pack_start_monitoring` -/
def lmkd_pack_start_monitoring (packet : LMKD_CTRL_PACKET) : LMKD_CTRL_PACKET × Nat :=
  (upd packet 0 (htonl LMK_START_MONITORING), 4)

/-- `lmkd_pack_set_update_props_repl` -/
def lmkd_pack_set_update_props_repl (packet : LMKD_CTRL_PACKET) (result : Nat) :
    LMKD_CTRL_PACKET × Nat :=
  (upd (upd packet 0 (htonl LMK_UPDATE_PROPS)) 1 (htonl result), 2 * 4)

/-- `struct lmk_update_props_reply` -/
structure lmk_update_props_reply where
  result : Nat
deriving DecidableEq, Repr

/-- `lmkd_pack_get_update_props_repl` -/
def lmkd_pack_get_update_props_repl (packet : LMKD_CTRL_PACKET) : lmk_update_props_reply :=
  { result := ntohl (packet 1) }

/-- `lmkd_pack_set_boot_completed_notif` -/
def lmkd_pack_set_boot_completed_notif (packet : LMKD_CTRL_PACKET) : LMKD_CTRL_PACKET × Nat :=
  (upd packet 0 (htonl LMK_BOOT_COMPLETED), 4)

/-- `lmkd_pack_set_boot_completed_notif_repl` -/
def lmkd_pack_set_boot_completed_notif_repl (packet : LMKD_CTRL_PACKET) (result : Nat) :
    LMKD_CTRL_PACKET × Nat :=
  (upd (upd packet 0 (htonl LMK_BOOT_COMPLETED)) 1 (htonl result), 2 * 4)

/-- `struct lmk_boot_completed_notif_reply` -/
structure lmk_boot_completed_notif_reply where
  result : Nat
deriving DecidableEq, Repr

/-- `lmkd_pack_get_boot_completed_notif_repl` -/
def lmkd_pack_get_boot_completed_notif_repl (packet : LMKD_CTRL_PACKET) :
    lmk_boot_completed_notif_reply :=
  { result := ntohl (packet 1) }

/-- `#define PROCS_PRIO_MAX_RECORD_COUNT (CTRL_PACKET_MAX_SIZE / LMK_PROCPRIO_SIZE)` -/
def PROCS_PRIO_MAX_RECORD_COUNT : Nat := CTRL_PACKET_MAX_SIZE / LMK_PROCPRIO_SIZE

/-- `struct lmk_procs_prio`: a C array of `PROCS_PRIO_MAX_RECORD_COUNT` records,
modelled as a total map so the out-of-bounds stores of the C code are
expressible. -/
structure lmk_procs_prio where
  procs : Nat → lmk_procprio

/-- The record-reading loop of `lmkd_pack_get_procs_prio`: for each remaining
record (structural fuel `n` = `procs_count - procs_idx`), read four slots
starting at `packetIdx` into record `procs_idx`. -/
def get_procs_prio_loop (packet : LMKD_CTRL_PACKET) :
    Nat → Nat → Nat → (Nat → lmk_procprio) → Nat → lmk_procprio
  | 0, _, _, procs => procs
  | n + 1, procs_idx, packetIdx, procs =>
      get_procs_prio_loop packet n (procs_idx + 1) (packetIdx + 4)
        (upd procs procs_idx
          { pid := ntohl (packet packetIdx)
            uid := ntohl (packet (packetIdx + 1))
            oomadj := ntohl (packet (packetIdx + 2))
            ptype := ntohl (packet (packetIdx + 3)) })

/-- `lmkd_pack_get_procs_prio`: reject a `field_count` below
`LMK_PROCPRIO_FIELD_COUNT` or not a multiple of it with -1 (the struct is
untouched, as the C returns before the loop); otherwise read
`field_count / 4` records starting at slot 1 and return that count. -/
def lmkd_pack_get_procs_prio (packet : LMKD_CTRL_PACKET) (params : lmk_procs_prio)
    (field_count : Int) : Int × lmk_procs_prio :=
  if field_count < (LMK_PROCPRIO_FIELD_COUNT : Int) ∨
      field_count % (LMK_PROCPRIO_FIELD_COUNT : Int) ≠ 0 then
    (-1, params)
  else
    let procs_count := field_count / (LMK_PROCPRIO_FIELD_COUNT : Int)
    (procs_count, ⟨get_procs_prio_loop packet procs_count.toNat 0 1 params.procs⟩)

/-- The record-writing loop of `lmkd_pack_set_procs_prio`: for each `i` below
`procs_count` (structural fuel `n` = remaining records), write record `i`'s
four fields at consecutive slots from `packetIdx`. -/
def set_procs_prio_loop (procs : Nat → lmk_procprio) :
    Nat → Nat → Nat → LMKD_CTRL_PACKET → LMKD_CTRL_PACKET × Nat
  | 0, _, packetIdx, packet => (packet, packetIdx)
  | n + 1, i, packetIdx, packet =>
      set_procs_prio_loop procs n (i + 1) (packetIdx + 4)
        (upd (upd (upd (upd packet packetIdx (htonl (procs i).pid))
            (packetIdx + 1) (htonl (procs i).uid))
            (packetIdx + 2) (htonl (procs i).oomadj))
            (packetIdx + 3) (htonl (procs i).ptype))

/-- `lmkd_pack_set_procs_prio`: write cmd then `procs_count` records, return
`packetIdx * sizeof(int)` bytes. -/
def lmkd_pack_set_procs_prio (packet : LMKD_CTRL_PACKET) (params : lmk_procs_prio)
    (procs_count : Nat) : LMKD_CTRL_PACKET × Nat :=
  let r := set_procs_prio_loop params.procs procs_count 0 1 (upd packet 0 (htonl LMK_PROCS_PRIO))
  (r.1, r.2 * 4)

theorem bswap32_bytes (a b c d : Nat) (ha : a < 256) (hb : b < 256) (hc : c < 256)
    (hd : d < 256) :
    bswap32 (a * 16777216 + b * 65536 + c * 256 + d) = d * 16777216 + c * 65536 + b * 256 + a := by
  unfold bswap32
  omega

theorem ntohl_htonl (x : Nat) (h : x < 4294967296) : ntohl (htonl x) = x := by
  have hx : x = x / 16777216 * 16777216 + x / 65536 % 256 * 65536 + x / 256 % 256 * 256 +
      x % 256 := by omega
  have h3 : x / 16777216 < 256 := by omega
  have h2 : x / 65536 % 256 < 256 := Nat.mod_lt _ (by omega)
  have h1 : x / 256 % 256 < 256 := Nat.mod_lt _ (by omega)
  have h0 : x % 256 < 256 := Nat.mod_lt _ (by omega)
  have hswap : bswap32 x = x % 256 * 16777216 + x / 256 % 256 * 65536 +
      x / 65536 % 256 * 256 + x / 16777216 := by
    conv_lhs => rw [hx]
    rw [bswap32_bytes _ _ _ _ h3 h2 h1 h0]
  have hlt : bswap32 x < 4294967296 := by rw [hswap]; omega
  unfold ntohl htonl
  rw [Nat.mod_eq_of_lt h, Nat.mod_eq_of_lt hlt, hswap,
    bswap32_bytes _ _ _ _ h0 h1 h2 h3]
  omega

theorem upd_same {α : Type} (f : Nat → α) (i : Nat) (v : α) : upd f i v i = v := by
  simp [upd]

theorem upd_other {α : Type} (f : Nat → α) (i j : Nat) (v : α) (h : j ≠ i) :
    upd f i v j = f j := by
  simp [upd, h]

theorem set_target_loop_idx (ts : List lmk_target) (p : LMKD_CTRL_PACKET) (idx : Nat) :
    (set_target_loop ts p idx).2 = idx + 2 * ts.length := by
  induction ts generalizing p idx with
  | nil => simp [set_target_loop]
  | cons t rest ih =>
    simp only [set_target_loop, ih, List.length_cons]
    omega

theorem set_target_loop_below (ts : List lmk_target) (p : LMKD_CTRL_PACKET) (idx j : Nat)
    (h : j < idx) : (set_target_loop ts p idx).1 j = p j := by
  induction ts generalizing p idx with
  | nil => rfl
  | cons t rest ih =>
    simp only [set_target_loop]
    rw [ih _ (idx + 2) (by omega), upd_other _ _ _ _ (by omega), upd_other _ _ _ _ (by omega)]

theorem set_target_loop_get (ts : List lmk_target) (p : LMKD_CTRL_PACKET) (idx i : Nat)
    (h : i < ts.length) :
    (set_target_loop ts p idx).1 (idx + 2 * i) = htonl ((ts.get ⟨i, h⟩).minfree) ∧
    (set_target_loop ts p idx).1 (idx + 2 * i + 1) = htonl ((ts.get ⟨i, h⟩).oom_adj_score) := by
  induction ts generalizing p idx i with
  | nil => exact absurd h (by simp)
  | cons t rest ih =>
    cases i with
    | zero =>
      simp only [set_target_loop, List.get]
      constructor
      · rw [set_target_loop_below _ _ _ _ (by omega)]
        rw [show idx + 2 * 0 = idx from by omega]
        rw [upd_other _ _ _ _ (by omega), upd_same]
      · rw [set_target_loop_below _ _ _ _ (by omega)]
        rw [show idx + 2 * 0 + 1 = idx + 1 from by omega]
        rw [upd_same]
    | succ i' =>
      simp only [set_target_loop, List.get]
      rw [show idx + 2 * (i' + 1) = idx + 2 + 2 * i' from by omega]
      exact ih _ _ i' (by simpa using h)

theorem get_procs_prio_loop_below (packet : LMKD_CTRL_PACKET) (n procs_idx packetIdx : Nat)
    (procs : Nat → lmk_procprio) (j : Nat) (h : j < procs_idx) :
    get_procs_prio_loop packet n procs_idx packetIdx procs j = procs j := by
  induction n generalizing procs_idx packetIdx procs with
  | zero => rfl
  | succ n ih =>
    simp only [get_procs_prio_loop]
    rw [ih _ _ _ (by omega), upd_other _ _ _ _ (by omega)]

theorem get_procs_prio_loop_get (packet : LMKD_CTRL_PACKET) (n procs_idx packetIdx i : Nat)
    (procs : Nat → lmk_procprio) (h : i < n) :
    get_procs_prio_loop packet n procs_idx packetIdx procs (procs_idx + i) =
      { pid := ntohl (packet (packetIdx + 4 * i))
        uid := ntohl (packet (packetIdx + 4 * i + 1))
        oomadj := ntohl (packet (packetIdx + 4 * i + 2))
        ptype := ntohl (packet (packetIdx + 4 * i + 3)) } := by
  induction n generalizing procs_idx packetIdx procs i with
  | zero => omega
  | succ n ih =>
    cases i with
    | zero =>
      simp only [get_procs_prio_loop]
      rw [get_procs_prio_loop_below _ _ _ _ _ _ (by omega)]
      rw [show procs_idx + 0 = procs_idx from by omega, upd_same]
      rw [show packetIdx + 4 * 0 = packetIdx from by omega]
    | succ i' =>
      simp only [get_procs_prio_loop]
      rw [show procs_idx + (i' + 1) = procs_idx + 1 + i' from by omega]
      rw [ih _ _ i' _ (by omega)]
      rw [show packetIdx + 4 + 4 * i' = packetIdx + 4 * (i' + 1) from by omega]

theorem set_procs_prio_loop_idx (procs : Nat → lmk_procprio) (n i packetIdx : Nat)
    (packet : LMKD_CTRL_PACKET) :
    (set_procs_prio_loop procs n i packetIdx packet).2 = packetIdx + 4 * n := by
  induction n generalizing i packetIdx packet with
  | zero => rfl
  | succ n ih =>
    simp only [set_procs_prio_loop]
    rw [ih]
    omega

theorem set_procs_prio_loop_below (procs : Nat → lmk_procprio) (n i packetIdx : Nat)
    (packet : LMKD_CTRL_PACKET) (j : Nat) (h : j < packetIdx) :
    (set_procs_prio_loop procs n i packetIdx packet).1 j = packet j := by
  induction n generalizing i packetIdx packet with
  | zero => rfl
  | succ n ih =>
    simp only [set_procs_prio_loop]
    rw [ih _ _ _ (by omega), upd_other _ _ _ _ (by omega), upd_other _ _ _ _ (by omega),
      upd_other _ _ _ _ (by omega), upd_other _ _ _ _ (by omega)]

theorem set_procs_prio_loop_get (procs : Nat → lmk_procprio) (n i packetIdx k : Nat)
    (packet : LMKD_CTRL_PACKET) (h : k < n) :
    (set_procs_prio_loop procs n i packetIdx packet).1 (packetIdx + 4 * k) =
        htonl ((procs (i + k)).pid) ∧
    (set_procs_prio_loop procs n i packetIdx packet).1 (packetIdx + 4 * k + 1) =
        htonl ((procs (i + k)).uid) ∧
    (set_procs_prio_loop procs n i packetIdx packet).1 (packetIdx + 4 * k + 2) =
        htonl ((procs (i + k)).oomadj) ∧
    (set_procs_prio_loop procs n i packetIdx packet).1 (packetIdx + 4 * k + 3) =
        htonl ((procs (i + k)).ptype) := by
  induction n generalizing i packetIdx packet k with
  | zero => omega
  | succ n ih =>
    cases k with
    | zero =>
      simp only [set_procs_prio_loop]
      rw [show i + 0 = i from by omega]
      refine ⟨?_, ?_, ?_, ?_⟩
      · rw [set_procs_prio_loop_below _ _ _ _ _ _ (by omega)]
        rw [show packetIdx + 4 * 0 = packetIdx from by omega]
        rw [upd_other _ _ _ _ (by omega), upd_other _ _ _ _ (by omega),
          upd_other _ _ _ _ (by omega), upd_same]
      · rw [set_procs_prio_loop_below _ _ _ _ _ _ (by omega)]
        rw [show packetIdx + 4 * 0 + 1 = packetIdx + 1 from by omega]
        rw [upd_other _ _ _ _ (by omega), upd_other _ _ _ _ (by omega), upd_same]
      · rw [set_procs_prio_loop_below _ _ _ _ _ _ (by omega)]
        rw [show packetIdx + 4 * 0 + 2 = packetIdx + 2 from by omega]
        rw [upd_other _ _ _ _ (by omega), upd_same]
      · rw [set_procs_prio_loop_below _ _ _ _ _ _ (by omega)]
        rw [show packetIdx + 4 * 0 + 3 = packetIdx + 3 from by omega]
        rw [upd_same]
    | succ k' =>
      simp only [set_procs_prio_loop]
      rw [show i + (k' + 1) = i + 1 + k' from by omega]
      rw [show packetIdx + 4 * (k' + 1) = packetIdx + 4 + 4 * k' from by omega]
      exact ih _ _ k' _ (by omega)

theorem get_procs_prio_eq (packet : LMKD_CTRL_PACKET) (params : lmk_procs_prio) (fc : Int) :
    lmkd_pack_get_procs_prio packet params fc =
      if fc < 4 ∨ fc % 4 ≠ 0 then (-1, params)
      else (fc / 4, ⟨get_procs_prio_loop packet (fc / 4).toNat 0 1 params.procs⟩) := by
  unfold lmkd_pack_get_procs_prio
  norm_num [LMK_PROCPRIO_FIELD_COUNT]

theorem procs_prio_fail_iff (packet : LMKD_CTRL_PACKET) (params : lmk_procs_prio) (fc : Int) :
    (lmkd_pack_get_procs_prio packet params fc).1 = -1 ↔ fc < 4 ∨ fc % 4 ≠ 0 := by
  rw [get_procs_prio_eq]
  by_cases hc : fc < 4 ∨ fc % 4 ≠ 0
  · rw [if_pos hc]
    simpa using hc
  · rw [if_neg hc]
    show fc / 4 = -1 ↔ _
    constructor
    · intro h1
      exact absurd h1 (by push_neg at hc; omega)
    · intro h1
      exact absurd h1 hc

/-- C1: `lmkd_pack_get_procs_prio` returns -1 exactly when the declared field
count is below 4 or not a multiple of 4; in particular it fails for counts
0, 1, 2, 3, 5, 6, 7 and succeeds for 4, 8, 12 with record counts 1, 2, 3. -/
theorem C1_procs_prio_field_count_validation :
    (∀ (packet : LMKD_CTRL_PACKET) (params : lmk_procs_prio) (field_count : Int),
      (lmkd_pack_get_procs_prio packet params field_count).1 = -1 ↔
        field_count < 4 ∨ field_count % 4 ≠ 0) ∧
    (∀ (packet : LMKD_CTRL_PACKET) (params : lmk_procs_prio),
      (lmkd_pack_get_procs_prio packet params 0).1 = -1 ∧
      (lmkd_pack_get_procs_prio packet params 1).1 = -1 ∧
      (lmkd_pack_get_procs_prio packet params 2).1 = -1 ∧
      (lmkd_pack_get_procs_prio packet params 3).1 = -1 ∧
      (lmkd_pack_get_procs_prio packet params 5).1 = -1 ∧
      (lmkd_pack_get_procs_prio packet params 6).1 = -1 ∧
      (lmkd_pack_get_procs_prio packet params 7).1 = -1 ∧
      (lmkd_pack_get_procs_prio packet params 4).1 = 1 ∧
      (lmkd_pack_get_procs_prio packet params 8).1 = 2 ∧
      (lmkd_pack_get_procs_prio packet params 12).1 = 3) := by
  constructor
  · intro packet params fc
    exact procs_prio_fail_iff packet params fc
  · intro packet params
    refine ⟨?_, ?_, ?_, ?_, ?_, ?_, ?_, ?_, ?_, ?_⟩ <;>
      rw [get_procs_prio_eq] <;> norm_num

/-- C4: decoding `ProcPrio` with a declared field count of 3 reads pid, uid,
oomadj from slots 1-3 and yields `PROC_TYPE_APP` regardless of slot 4, while
field count 4 reads ptype from slot 4; decoding an encoded `ProcPrio` with
field count 3 yields `PROC_TYPE_APP`. -/
theorem C4_procprio_backward_compat :
    ∀ (packet : LMKD_CTRL_PACKET),
      lmkd_pack_get_procprio packet 3 =
        { pid := ntohl (packet 1), uid := ntohl (packet 2), oomadj := ntohl (packet 3),
          ptype := PROC_TYPE_APP } ∧
      lmkd_pack_get_procprio packet 4 =
        { pid := ntohl (packet 1), uid := ntohl (packet 2), oomadj := ntohl (packet 3),
          ptype := ntohl (packet 4) } ∧
      (∀ params : lmk_procprio,
        (lmkd_pack_get_procprio (lmkd_pack_set_procprio packet params).1 3).ptype =
          PROC_TYPE_APP) := by
  intro packet
  refine ⟨?_, ?_, ?_⟩
  · simp [lmkd_pack_get_procprio]
  · simp [lmkd_pack_get_procprio]
  · intro params
    simp [lmkd_pack_get_procprio]

/-- C9: when batch decoding fails on the field count, the whole result is
`(-1, params)`: the output struct is returned untouched because the check
precedes every record store. -/
theorem C9_failure_leaves_output_unchanged :
    ∀ (packet : LMKD_CTRL_PACKET) (params : lmk_procs_prio) (field_count : Int),
      field_count < 4 ∨ field_count % 4 ≠ 0 →
      lmkd_pack_get_procs_prio packet params field_count = (-1, params) := by
  intro packet params fc hc
  rw [get_procs_prio_eq]
  exact if_pos hc

/-- Witness for C9 at field count 7. -/
theorem C9_witness :
    lmkd_pack_get_procs_prio (fun _ => 0) ⟨fun _ => ⟨0, 0, 0, 0⟩⟩ 7 =
      (-1, ⟨fun _ => ⟨0, 0, 0, 0⟩⟩) :=
  C9_failure_leaves_output_unchanged _ _ 7 (by norm_num)

/-- C2: decode after encode yields the original payload: every target of an
encoded batch of at most `MAX_TARGETS` targets is recovered by index, an
encoded `ProcPrio` decoded with field count 4 is recovered whole, and the
other fixed-shape payloads (`ProcRemove`, `GetKillCnt`, `Subscribe`, the
`GetKillCnt`/`UpdateProps`/`BootCompleted` replies) round-trip likewise.
Fields are 32-bit patterns, hence the `< 2^32` bounds. -/
theorem C2_roundtrip :
    ∀ (p : LMKD_CTRL_PACKET),
      (∀ (targets : List lmk_target) (i : Nat) (hlen : targets.length ≤ MAX_TARGETS)
          (hi : i < targets.length)
          (hb : ∀ t ∈ targets, t.minfree < 4294967296 ∧ t.oom_adj_score < 4294967296),
        lmkd_pack_get_target (lmkd_pack_set_target p targets).1 i = targets.get ⟨i, hi⟩) ∧
      (∀ params : lmk_procprio, params.pid < 4294967296 → params.uid < 4294967296 →
          params.oomadj < 4294967296 → params.ptype < 4294967296 →
        lmkd_pack_get_procprio (lmkd_pack_set_procprio p params).1 4 = params) ∧
      (∀ params : lmk_procremove, params.pid < 4294967296 →
        lmkd_pack_get_procremove (lmkd_pack_set_procremove p params).1 = params) ∧
      (∀ params : lmk_getkillcnt, params.min_oomadj < 4294967296 →
          params.max_oomadj < 4294967296 →
        lmkd_pack_get_getkillcnt (lmkd_pack_set_getkillcnt p params).1 = params) ∧
      (∀ evt_type : Nat, evt_type < 4294967296 →
        lmkd_pack_get_subscribe (lmkd_pack_set_subscribe p evt_type).1 = ⟨evt_type⟩) ∧
      (∀ kill_cnt : Nat, kill_cnt < 4294967296 →
        ntohl ((lmkd_pack_set_getkillcnt_repl p kill_cnt).1 1) = kill_cnt) ∧
      (∀ result : Nat, result < 4294967296 →
        lmkd_pack_get_update_props_repl (lmkd_pack_set_update_props_repl p result).1 =
          ⟨result⟩) ∧
      (∀ result : Nat, result < 4294967296 →
        lmkd_pack_get_boot_completed_notif_repl
          (lmkd_pack_set_boot_completed_notif_repl p result).1 = ⟨result⟩) := by
  intro p
  refine ⟨?_, ?_, ?_, ?_, ?_, ?_, ?_, ?_⟩
  · intro targets i hlen hi hb
    obtain ⟨h1, h2⟩ := set_target_loop_get targets (upd p 0 (htonl LMK_TARGET)) 1 i hi
    obtain ⟨hbm, hbo⟩ := hb _ (targets.get_mem i hi)
    unfold lmkd_pack_get_target lmkd_pack_set_target
    rw [show i * 2 + 1 = 1 + 2 * i from by omega, show i * 2 + 2 = 1 + 2 * i + 1 from by omega,
      h1, h2, ntohl_htonl _ hbm, ntohl_htonl _ hbo]
  · intro params h1 h2 h3 h4
    obtain ⟨pid, uid, oomadj, ptype⟩ := params
    simp only [lmkd_pack_get_procprio, lmkd_pack_set_procprio, upd] at h1 h2 h3 h4 ⊢
    norm_num [ntohl_htonl _ h1, ntohl_htonl _ h2, ntohl_htonl _ h3, ntohl_htonl _ h4]
  · intro params h1
    obtain ⟨pid⟩ := params
    simp only [lmkd_pack_get_procremove, lmkd_pack_set_procremove, upd] at h1 ⊢
    norm_num [ntohl_htonl _ h1]
  · intro params h1 h2
    obtain ⟨mn, mx⟩ := params
    simp only [lmkd_pack_get_getkillcnt, lmkd_pack_set_getkillcnt, upd] at h1 h2 ⊢
    norm_num [ntohl_htonl _ h1, ntohl_htonl _ h2]
  · intro evt_type h1
    simp only [lmkd_pack_get_subscribe, lmkd_pack_set_subscribe, upd]
    norm_num [ntohl_htonl _ h1]
  · intro kill_cnt h1
    simp only [lmkd_pack_set_getkillcnt_repl, upd]
    norm_num [ntohl_htonl _ h1]
  · intro result h1
    simp only [lmkd_pack_get_update_props_repl, lmkd_pack_set_update_props_repl, upd]
    norm_num [ntohl_htonl _ h1]
  · intro result h1
    simp only [lmkd_pack_get_boot_completed_notif_repl,
      lmkd_pack_set_boot_completed_notif_repl, upd]
    norm_num [ntohl_htonl _ h1]

/-- Witness for C2: the spec's scenario, `ProcPrio{pid=1234, uid=10000,
oomadj=900, ptype=SERVICE}` round-trips at field count 4, and a one-target
batch round-trips at index 0. -/
theorem C2_roundtrip_witness :
    lmkd_pack_get_procprio
        (lmkd_pack_set_procprio (fun _ => 0) ⟨1234, 10000, 900, PROC_TYPE_SERVICE⟩).1 4 =
      ⟨1234, 10000, 900, PROC_TYPE_SERVICE⟩ ∧
    lmkd_pack_get_target (lmkd_pack_set_target (fun _ => 0) [⟨14746, 900⟩]).1 0 =
      ⟨14746, 900⟩ :=
  ⟨((C2_roundtrip (fun _ => 0)).2.1 ⟨1234, 10000, 900, PROC_TYPE_SERVICE⟩
      (by norm_num) (by norm_num) (by norm_num) (by norm_num [PROC_TYPE_SERVICE])),
   ((C2_roundtrip (fun _ => 0)).1 [⟨14746, 900⟩] 0 (by norm_num [MAX_TARGETS]) (by norm_num)
      (by intro t ht; simp at ht; rw [ht]; norm_num))⟩

/-- C3: a batch of `n` records (1 ≤ n ≤ 3) encodes to `(4n+1)*4` bytes, and
batch decoding the result with field count `4n` succeeds with record count
`n` and recovers every record. -/
theorem C3_procs_prio_roundtrip :
    ∀ (p : LMKD_CTRL_PACKET) (params params2 : lmk_procs_prio) (n : Nat),
      1 ≤ n → n ≤ PROCS_PRIO_MAX_RECORD_COUNT →
      (∀ i, i < n → (params.procs i).pid < 4294967296 ∧ (params.procs i).uid < 4294967296 ∧
        (params.procs i).oomadj < 4294967296 ∧ (params.procs i).ptype < 4294967296) →
      (lmkd_pack_set_procs_prio p params n).2 = (4 * n + 1) * 4 ∧
      (lmkd_pack_get_procs_prio (lmkd_pack_set_procs_prio p params n).1 params2
        (4 * (n : Int))).1 = n ∧
      (∀ i, i < n →
        (lmkd_pack_get_procs_prio (lmkd_pack_set_procs_prio p params n).1 params2
          (4 * (n : Int))).2.procs i = params.procs i) := by
  intro p params params2 n hn1 hn3 hb
  have hguard : ¬((4 * (n : Int)) < 4 ∨ (4 * (n : Int)) % 4 ≠ 0) := by push_neg; omega
  have hdiv : (4 * (n : Int)) / 4 = (n : Int) := by omega
  have htn : ((4 * (n : Int)) / 4).toNat = n := by omega
  refine ⟨?_, ?_, ?_⟩
  · show (set_procs_prio_loop params.procs n 0 1 (upd p 0 (htonl LMK_PROCS_PRIO))).2 * 4 =
      (4 * n + 1) * 4
    rw [set_procs_prio_loop_idx]
    omega
  · rw [get_procs_prio_eq, if_neg hguard, hdiv]
  · intro i hi
    rw [get_procs_prio_eq, if_neg hguard]
    show get_procs_prio_loop _ _ 0 1 _ i = _
    rw [htn, show i = 0 + i from by omega,
      get_procs_prio_loop_get _ n 0 1 i _ (by omega)]
    unfold lmkd_pack_set_procs_prio
    obtain ⟨h1, h2, h3, h4⟩ :=
      set_procs_prio_loop_get params.procs n 0 1 i (upd p 0 (htonl LMK_PROCS_PRIO)) hi
    rw [show 0 + i = i from by omega] at h1 h2 h3 h4 ⊢
    obtain ⟨hb1, hb2, hb3, hb4⟩ := hb i hi
    rw [h1, h2, h3, h4, ntohl_htonl _ hb1, ntohl_htonl _ hb2, ntohl_htonl _ hb3,
      ntohl_htonl _ hb4]

/-- Witness for C3: the spec's scenario, a 2-record batch
`[(1,1,0,APP), (2,2,1,SERVICE)]` encodes to 36 bytes and decodes with field
count 8 to record count 2 with both records intact. -/
theorem C3_witness :
    (lmkd_pack_set_procs_prio (fun _ => 0)
        ⟨fun i => if i = 0 then ⟨1, 1, 0, PROC_TYPE_APP⟩ else ⟨2, 2, 1, PROC_TYPE_SERVICE⟩⟩
        2).2 = 36 ∧
    (lmkd_pack_get_procs_prio
        (lmkd_pack_set_procs_prio (fun _ => 0)
          ⟨fun i => if i = 0 then ⟨1, 1, 0, PROC_TYPE_APP⟩ else ⟨2, 2, 1, PROC_TYPE_SERVICE⟩⟩
          2).1
        ⟨fun _ => ⟨0, 0, 0, 0⟩⟩ 8).1 = 2 ∧
    (lmkd_pack_get_procs_prio
        (lmkd_pack_set_procs_prio (fun _ => 0)
          ⟨fun i => if i = 0 then ⟨1, 1, 0, PROC_TYPE_APP⟩ else ⟨2, 2, 1, PROC_TYPE_SERVICE⟩⟩
          2).1
        ⟨fun _ => ⟨0, 0, 0, 0⟩⟩ 8).2.procs 0 = ⟨1, 1, 0, PROC_TYPE_APP⟩ ∧
    (lmkd_pack_get_procs_prio
        (lmkd_pack_set_procs_prio (fun _ => 0)
          ⟨fun i => if i = 0 then ⟨1, 1, 0, PROC_TYPE_APP⟩ else ⟨2, 2, 1, PROC_TYPE_SERVICE⟩⟩
          2).1
        ⟨fun _ => ⟨0, 0, 0, 0⟩⟩ 8).2.procs 1 = ⟨2, 2, 1, PROC_TYPE_SERVICE⟩ := by
  have h := C3_procs_prio_roundtrip (fun _ => 0)
    ⟨fun i => if i = 0 then ⟨1, 1, 0, PROC_TYPE_APP⟩ else ⟨2, 2, 1, PROC_TYPE_SERVICE⟩⟩
    ⟨fun _ => ⟨0, 0, 0, 0⟩⟩ 2 (by norm_num)
    (by norm_num [PROCS_PRIO_MAX_RECORD_COUNT, CTRL_PACKET_MAX_SIZE, LMK_PROCPRIO_SIZE,
      LMK_PROCPRIO_FIELD_COUNT, MAX_TARGETS])
    (by
      intro i hi
      by_cases hz : i = 0 <;>
        simp [hz, PROC_TYPE_APP, PROC_TYPE_SERVICE])
  refine ⟨by rw [h.1], ?_, ?_, ?_⟩
  · have h2 := h.2.1
    norm_num at h2
    exact h2
  · have h3 := h.2.2 0 (by norm_num)
    norm_num at h3
    exact h3
  · have h4 := h.2.2 1 (by norm_num)
    norm_num at h4
    exact h4

/-- C5: every encoder returns slots-written times 4 bytes: `n` targets give
`(2n+1)*4` bytes (so 6 targets give exactly `CTRL_PACKET_MAX_SIZE` = 52),
3 batch records give 52 bytes, and the fixed-shape encoders return their
fixed slot counts times 4. -/
theorem C5_encode_byte_counts :
    ∀ (p : LMKD_CTRL_PACKET) (targets : List lmk_target) (params : lmk_procs_prio)
      (pp : lmk_procprio) (pr : lmk_procremove) (gk : lmk_getkillcnt) (n v w : Nat),
      (lmkd_pack_set_target p targets).2 = (2 * targets.length + 1) * 4 ∧
      (targets.length = MAX_TARGETS →
        (lmkd_pack_set_target p targets).2 = CTRL_PACKET_MAX_SIZE) ∧
      (lmkd_pack_set_procs_prio p params n).2 = (4 * n + 1) * 4 ∧
      (lmkd_pack_set_procs_prio p params 3).2 = CTRL_PACKET_MAX_SIZE ∧
      (lmkd_pack_set_procprio p pp).2 = 5 * 4 ∧
      (lmkd_pack_set_procremove p pr).2 = 2 * 4 ∧
      (lmkd_pack_set_procpurge p).2 = 4 ∧
      (lmkd_pack_set_getkillcnt p gk).2 = 3 * 4 ∧
      (lmkd_pack_set_getkillcnt_repl p v).2 = 2 * 4 ∧
      (lmkd_pack_set_subscribe p v).2 = 2 * 4 ∧
      (lmkd_pack_set_prockills p v w).2 = 3 * 4 ∧
      (lmkd_pack_set_update_props p).2 = 4 ∧
      (lmkd_pack_start_monitoring p).2 = 4 ∧
      (lmkd_pack_set_update_props_repl p v).2 = 2 * 4 ∧
      (lmkd_pack_set_boot_completed_notif p).2 = 4 ∧
      (lmkd_pack_set_boot_completed_notif_repl p v).2 = 2 * 4 := by
  intro p targets params pp pr gk n v w
  have htar : (lmkd_pack_set_target p targets).2 = (2 * targets.length + 1) * 4 := by
    show (set_target_loop targets (upd p 0 (htonl LMK_TARGET)) 1).2 * 4 = _
    rw [set_target_loop_idx]
    omega
  have hbatch : ∀ m : Nat, (lmkd_pack_set_procs_prio p params m).2 = (4 * m + 1) * 4 := by
    intro m
    show (set_procs_prio_loop params.procs m 0 1 (upd p 0 (htonl LMK_PROCS_PRIO))).2 * 4 = _
    rw [set_procs_prio_loop_idx]
    omega
  refine ⟨htar, ?_, hbatch n, ?_, rfl, rfl, rfl, rfl, rfl, rfl, rfl, rfl, rfl, rfl, rfl, rfl⟩
  · intro hlen
    rw [htar, hlen]
    norm_num [MAX_TARGETS, CTRL_PACKET_MAX_SIZE]
  · rw [hbatch 3]
    norm_num [CTRL_PACKET_MAX_SIZE, MAX_TARGETS]

/-- Witness for C5: six concrete targets encode to exactly 52 bytes. -/
theorem C5_witness :
    (lmkd_pack_set_target (fun _ => 0)
        [⟨1, 2⟩, ⟨3, 4⟩, ⟨5, 6⟩, ⟨7, 8⟩, ⟨9, 10⟩, ⟨11, 12⟩]).2 = CTRL_PACKET_MAX_SIZE :=
  (C5_encode_byte_counts (fun _ => 0) [⟨1, 2⟩, ⟨3, 4⟩, ⟨5, 6⟩, ⟨7, 8⟩, ⟨9, 10⟩, ⟨11, 12⟩]
      ⟨fun _ => ⟨0, 0, 0, 0⟩⟩ ⟨0, 0, 0, 0⟩ ⟨0⟩ ⟨0, 0⟩ 0 0 0).2.1
    (by norm_num [MAX_TARGETS])

/-- C6: every encoder stores its command discriminant (host-to-network
converted) in slot 0, and `lmkd_pack_get_cmd` returns the network-to-host
conversion of slot 0 with no validation: it reports whatever 32-bit value
slot 0 holds, known command or not. -/
theorem C6_cmd_discriminant :
    ∀ (p : LMKD_CTRL_PACKET),
      lmkd_pack_get_cmd p = ntohl (p 0) ∧
      (∀ v : Nat, v < 4294967296 → lmkd_pack_get_cmd (upd p 0 (htonl v)) = v) ∧
      (∀ targets, lmkd_pack_get_cmd (lmkd_pack_set_target p targets).1 = LMK_TARGET) ∧
      (∀ pp : lmk_procprio,
        lmkd_pack_get_cmd (lmkd_pack_set_procprio p pp).1 = LMK_PROCPRIO) ∧
      (∀ pr : lmk_procremove,
        lmkd_pack_get_cmd (lmkd_pack_set_procremove p pr).1 = LMK_PROCREMOVE) ∧
      lmkd_pack_get_cmd (lmkd_pack_set_procpurge p).1 = LMK_PROCPURGE ∧
      (∀ gk : lmk_getkillcnt,
        lmkd_pack_get_cmd (lmkd_pack_set_getkillcnt p gk).1 = LMK_GETKILLCNT) ∧
      (∀ v : Nat, lmkd_pack_get_cmd (lmkd_pack_set_getkillcnt_repl p v).1 = LMK_GETKILLCNT) ∧
      (∀ v : Nat, lmkd_pack_get_cmd (lmkd_pack_set_subscribe p v).1 = LMK_SUBSCRIBE) ∧
      (∀ v w : Nat, lmkd_pack_get_cmd (lmkd_pack_set_prockills p v w).1 = LMK_PROCKILL) ∧
      lmkd_pack_get_cmd (lmkd_pack_set_update_props p).1 = LMK_UPDATE_PROPS ∧
      lmkd_pack_get_cmd (lmkd_pack_start_monitoring p).1 = LMK_START_MONITORING ∧
      (∀ v : Nat,
        lmkd_pack_get_cmd (lmkd_pack_set_update_props_repl p v).1 = LMK_UPDATE_PROPS) ∧
      lmkd_pack_get_cmd (lmkd_pack_set_boot_completed_notif p).1 = LMK_BOOT_COMPLETED ∧
      (∀ v : Nat,
        lmkd_pack_get_cmd (lmkd_pack_set_boot_completed_notif_repl p v).1 =
          LMK_BOOT_COMPLETED) ∧
      (∀ (params : lmk_procs_prio) (n : Nat),
        lmkd_pack_get_cmd (lmkd_pack_set_procs_prio p params n).1 = LMK_PROCS_PRIO) := by
  intro p
  refine ⟨rfl, ?_, ?_, ?_, ?_, ?_, ?_, ?_, ?_, ?_, ?_, ?_, ?_, ?_, ?_, ?_⟩
  · intro v hv
    show ntohl (upd p 0 (htonl v) 0) = v
    rw [upd_same, ntohl_htonl _ hv]
  · intro targets
    show ntohl ((set_target_loop targets (upd p 0 (htonl LMK_TARGET)) 1).1 0) = _
    rw [set_target_loop_below _ _ _ _ (by omega), upd_same,
      ntohl_htonl _ (by norm_num [LMK_TARGET])]
  · intro pp
    show ntohl _ = _
    simp only [lmkd_pack_set_procprio]
    rw [upd_other _ _ _ _ (by omega), upd_other _ _ _ _ (by omega),
      upd_other _ _ _ _ (by omega), upd_other _ _ _ _ (by omega), upd_same,
      ntohl_htonl _ (by norm_num [ LMK_PROCPRIO])]
  · intro pr
    show ntohl _ = _
    simp only [lmkd_pack_set_procremove]
    rw [upd_other _ _ _ _ (by omega), upd_same, ntohl_htonl _ (by norm_num [LMK_PROCREMOVE])]
  · show ntohl (upd p 0 (htonl LMK_PROCPURGE) 0) = _
    rw [upd_same, ntohl_htonl _ (by norm_num [LMK_PROCPURGE])]
  · intro gk
    show ntohl _ = _
    simp only [lmkd_pack_set_getkillcnt]
    rw [upd_other _ _ _ _ (by omega), upd_other _ _ _ _ (by omega), upd_same,
      ntohl_htonl _ (by norm_num [LMK_GETKILLCNT])]
  · intro v
    show ntohl _ = _
    simp only [lmkd_pack_set_getkillcnt_repl]
    rw [upd_other _ _ _ _ (by omega), upd_same, ntohl_htonl _ (by norm_num [LMK_GETKILLCNT])]
  · intro v
    show ntohl _ = _
    simp only [lmkd_pack_set_subscribe]
    rw [upd_other _ _ _ _ (by omega), upd_same, ntohl_htonl _ (by norm_num [LMK_SUBSCRIBE])]
  · intro v w
    show ntohl _ = _
    simp only [lmkd_pack_set_prockills]
    rw [upd_other _ _ _ _ (by omega), upd_other _ _ _ _ (by omega), upd_same,
      ntohl_htonl _ (by norm_num [LMK_PROCKILL])]
  · show ntohl (upd p 0 (htonl LMK_UPDATE_PROPS) 0) = _
    rw [upd_same, ntohl_htonl _ (by norm_num [LMK_UPDATE_PROPS])]
  · show ntohl (upd p 0 (htonl LMK_START_MONITORING) 0) = _
    rw [upd_same, ntohl_htonl _ (by norm_num [LMK_START_MONITORING])]
  · intro v
    show ntohl _ = _
    simp only [lmkd_pack_set_update_props_repl]
    rw [upd_other _ _ _ _ (by omega), upd_same,
      ntohl_htonl _ (by norm_num [LMK_UPDATE_PROPS])]
  · show ntohl (upd p 0 (htonl LMK_BOOT_COMPLETED) 0) = _
    rw [upd_same, ntohl_htonl _ (by norm_num [LMK_BOOT_COMPLETED])]
  · intro v
    show ntohl _ = _
    simp only [lmkd_pack_set_boot_completed_notif_repl]
    rw [upd_other _ _ _ _ (by omega), upd_same,
      ntohl_htonl _ (by norm_num [LMK_BOOT_COMPLETED])]
  · intro params n
    show ntohl ((set_procs_prio_loop params.procs n 0 1
      (upd p 0 (htonl LMK_PROCS_PRIO))).1 0) = _
    rw [set_procs_prio_loop_below _ _ _ _ _ _ (by omega), upd_same,
      ntohl_htonl _ (by norm_num [ LMK_PROCS_PRIO])]

/-- Witness for C6: an unrecognized discriminant 999 in slot 0 is returned
as-is by `lmkd_pack_get_cmd`. -/
theorem C6_witness :
    lmkd_pack_get_cmd (upd (fun _ => 0) 0 (htonl 999)) = 999 :=
  (C6_cmd_discriminant (fun _ => 0)).2.1 999 (by norm_num)

/-- C7: the only error the codec can signal is the batch decoder's -1,
raised exactly when the field count does not describe whole 4-int records
(otherwise it returns `field_count / 4`); every other decode operation is a
total, unconditional read of its slots, with no validation anywhere. -/
theorem C7_single_error_kind :
    ∀ (packet : LMKD_CTRL_PACKET) (params : lmk_procs_prio) (field_count : Int),
      ((lmkd_pack_get_procs_prio packet params field_count).1 = -1 ↔
        field_count < 4 ∨ field_count % 4 ≠ 0) ∧
      ((lmkd_pack_get_procs_prio packet params field_count).1 = -1 ∨
        (lmkd_pack_get_procs_prio packet params field_count).1 = field_count / 4) ∧
      lmkd_pack_get_procprio packet field_count =
        { pid := ntohl (packet 1), uid := ntohl (packet 2), oomadj := ntohl (packet 3),
          ptype := if field_count > 3 then ntohl (packet 4) else PROC_TYPE_APP } ∧
      lmkd_pack_get_procremove packet = { pid := ntohl (packet 1) } ∧
      lmkd_pack_get_getkillcnt packet =
        { min_oomadj := ntohl (packet 1), max_oomadj := ntohl (packet 2) } ∧
      lmkd_pack_get_subscribe packet = { evt_type := ntohl (packet 1) } ∧
      lmkd_pack_get_update_props_repl packet = { result := ntohl (packet 1) } ∧
      lmkd_pack_get_boot_completed_notif_repl packet = { result := ntohl (packet 1) } ∧
      lmkd_pack_get_cmd packet = ntohl (packet 0) := by
  intro packet params fc
  refine ⟨procs_prio_fail_iff packet params fc, ?_, rfl, rfl, rfl, rfl, rfl, rfl, rfl⟩
  rw [get_procs_prio_eq]
  by_cases hc : fc < 4 ∨ fc % 4 ≠ 0
  · rw [if_pos hc]
    exact Or.inl rfl
  · rw [if_neg hc]
    exact Or.inr rfl

/-- C8: batch decoding enforces no upper bound on the field count: any
multiple of 4 at least 4 passes validation and yields `field_count / 4`
records; at field count 16 the decoder returns 4 records — one more than
`PROCS_PRIO_MAX_RECORD_COUNT` = 3 — and fills record index 3 from slots
13-16, past the 13-slot packet (`CTRL_PACKET_SLOT_COUNT`). -/
theorem C8_no_upper_bound :
    (∀ (packet : LMKD_CTRL_PACKET) (params : lmk_procs_prio) (field_count : Int),
      4 ≤ field_count → field_count % 4 = 0 →
      (lmkd_pack_get_procs_prio packet params field_count).1 = field_count / 4) ∧
    ((lmkd_pack_get_procs_prio (fun i => htonl i) ⟨fun _ => ⟨0, 0, 0, 0⟩⟩ 16).1 = 4 ∧
      (4 : Int) = (PROCS_PRIO_MAX_RECORD_COUNT : Int) + 1 ∧
      (lmkd_pack_get_procs_prio (fun i => htonl i) ⟨fun _ => ⟨0, 0, 0, 0⟩⟩ 16).2.procs 3 =
        ⟨13, 14, 15, 16⟩ ∧
      CTRL_PACKET_SLOT_COUNT = 13) := by
  constructor
  · intro packet params fc h1 h2
    rw [get_procs_prio_eq, if_neg (by push_neg; omega)]
  · refine ⟨?_, by decide, ?_, by decide⟩
    · rw [get_procs_prio_eq, if_neg (by norm_num)]
      norm_num
    · decide

/-- Witness for C8: at field count 16 validation passes and the record count
is 16 / 4 = 4. -/
theorem C8_witness :
    (lmkd_pack_get_procs_prio (fun _ => 0) ⟨fun _ => ⟨0, 0, 0, 0⟩⟩ 16).1 = 16 / 4 :=
  C8_no_upper_bound.1 (fun _ => 0) ⟨fun _ => ⟨0, 0, 0, 0⟩⟩ 16 (by norm_num) (by norm_num)

/-- C10: `lmkd_pack_set_procprio` always writes all four payload fields
(ptype into slot 4) and returns 20 bytes, never the 16-byte legacy shape;
no other encoder stores the `LMK_PROCPRIO` discriminant, so the legacy
3-field wire format is only ever decoded, not produced. -/
theorem C10_set_procprio_unconditional :
    ∀ (p : LMKD_CTRL_PACKET) (params : lmk_procprio),
      (lmkd_pack_set_procprio p params).2 = 5 * 4 ∧
      (lmkd_pack_set_procprio p params).1 0 = htonl LMK_PROCPRIO ∧
      (lmkd_pack_set_procprio p params).1 1 = htonl params.pid ∧
      (lmkd_pack_set_procprio p params).1 2 = htonl params.uid ∧
      (lmkd_pack_set_procprio p params).1 3 = htonl params.oomadj ∧
      (lmkd_pack_set_procprio p params).1 4 = htonl params.ptype ∧
      (lmkd_pack_set_procprio p params).2 ≠ 4 * 4 ∧
      (∀ targets, (lmkd_pack_set_target p targets).1 0 ≠ htonl LMK_PROCPRIO) ∧
      (∀ pr : lmk_procremove,
        (lmkd_pack_set_procremove p pr).1 0 ≠ htonl LMK_PROCPRIO) ∧
      (lmkd_pack_set_procpurge p).1 0 ≠ htonl LMK_PROCPRIO ∧
      (∀ gk : lmk_getkillcnt,
        (lmkd_pack_set_getkillcnt p gk).1 0 ≠ htonl LMK_PROCPRIO) ∧
      (∀ v : Nat, (lmkd_pack_set_getkillcnt_repl p v).1 0 ≠ htonl LMK_PROCPRIO) ∧
      (∀ v : Nat, (lmkd_pack_set_subscribe p v).1 0 ≠ htonl LMK_PROCPRIO) ∧
      (∀ v w : Nat, (lmkd_pack_set_prockills p v w).1 0 ≠ htonl LMK_PROCPRIO) ∧
      (lmkd_pack_set_update_props p).1 0 ≠ htonl LMK_PROCPRIO ∧
      (lmkd_pack_start_monitoring p).1 0 ≠ htonl LMK_PROCPRIO ∧
      (∀ v : Nat, (lmkd_pack_set_update_props_repl p v).1 0 ≠ htonl LMK_PROCPRIO) ∧
      (lmkd_pack_set_boot_completed_notif p).1 0 ≠ htonl LMK_PROCPRIO ∧
      (∀ v : Nat,
        (lmkd_pack_set_boot_completed_notif_repl p v).1 0 ≠ htonl LMK_PROCPRIO) ∧
      (∀ (pp : lmk_procs_prio) (n : Nat),
        (lmkd_pack_set_procs_prio p pp n).1 0 = htonl LMK_PROCS_PRIO) ∧
      htonl LMK_PROCS_PRIO ≠ htonl LMK_PROCPRIO := by
  intro p params
  refine ⟨rfl, ?_, ?_, ?_, ?_, ?_, by norm_num [lmkd_pack_set_procprio], ?_, ?_, ?_, ?_, ?_,
    ?_, ?_, ?_, ?_, ?_, ?_, ?_, ?_⟩
  · simp [lmkd_pack_set_procprio, upd]
  · simp [lmkd_pack_set_procprio, upd]
  · simp [lmkd_pack_set_procprio, upd]
  · simp [lmkd_pack_set_procprio, upd]
  · simp [lmkd_pack_set_procprio, upd]
  · intro targets
    show (set_target_loop targets (upd p 0 (htonl LMK_TARGET)) 1).1 0 ≠ _
    rw [set_target_loop_below _ _ _ _ (by omega), upd_same]
    decide
  · intro pr
    simp only [lmkd_pack_set_procremove]
    rw [upd_other _ _ _ _ (by omega), upd_same]
    decide
  · show upd p 0 (htonl LMK_PROCPURGE) 0 ≠ _
    rw [upd_same]
    decide
  · intro gk
    simp only [lmkd_pack_set_getkillcnt]
    rw [upd_other _ _ _ _ (by omega), upd_other _ _ _ _ (by omega), upd_same]
    decide
  · intro v
    simp only [lmkd_pack_set_getkillcnt_repl]
    rw [upd_other _ _ _ _ (by omega), upd_same]
    decide
  · intro v
    simp only [lmkd_pack_set_subscribe]
    rw [upd_other _ _ _ _ (by omega), upd_same]
    decide
  · intro v w
    simp only [lmkd_pack_set_prockills]
    rw [upd_other _ _ _ _ (by omega), upd_other _ _ _ _ (by omega), upd_same]
    decide
  · show upd p 0 (htonl LMK_UPDATE_PROPS) 0 ≠ _
    rw [upd_same]
    decide
  · show upd p 0 (htonl LMK_START_MONITORING) 0 ≠ _
    rw [upd_same]
    decide
  · intro v
    simp only [lmkd_pack_set_update_props_repl]
    rw [upd_other _ _ _ _ (by omega), upd_same]
    decide
  · show upd p 0 (htonl LMK_BOOT_COMPLETED) 0 ≠ _
    rw [upd_same]
    decide
  · intro v
    simp only [lmkd_pack_set_boot_completed_notif_repl]
    rw [upd_other _ _ _ _ (by omega), upd_same]
    decide
  · constructor
    · intro pp n
      show (set_procs_prio_loop pp.procs n 0 1 (upd p 0 (htonl LMK_PROCS_PRIO))).1 0 = _
      rw [set_procs_prio_loop_below _ _ _ _ _ _ (by omega), upd_same]
    · decide

/-- Witness for C10: a concrete `ProcPrio` encodes to 20 bytes with its
ptype in slot 4. -/
theorem C10_witness :
    (lmkd_pack_set_procprio (fun _ => 0) ⟨1234, 10000, 900, PROC_TYPE_SERVICE⟩).2 = 5 * 4 ∧
    (lmkd_pack_set_procprio (fun _ => 0) ⟨1234, 10000, 900, PROC_TYPE_SERVICE⟩).1 4 =
      htonl PROC_TYPE_SERVICE :=
  ⟨(C10_set_procprio_unconditional (fun _ => 0) ⟨1234, 10000, 900, PROC_TYPE_SERVICE⟩).1,
   (C10_set_procprio_unconditional
      (fun _ => 0) ⟨1234, 10000, 900, PROC_TYPE_SERVICE⟩).2.2.2.2.2.1⟩

/-- Witness for C1: field count 5 fails, field count 4 yields one record. -/
theorem C1_witness :
    (lmkd_pack_get_procs_prio (fun _ => 0) ⟨fun _ => ⟨0, 0, 0, 0⟩⟩ 5).1 = -1 ∧
    (lmkd_pack_get_procs_prio (fun _ => 0) ⟨fun _ => ⟨0, 0, 0, 0⟩⟩ 4).1 = 1 :=
  ⟨(C1_procs_prio_field_count_validation.2 (fun _ => 0) ⟨fun _ => ⟨0, 0, 0, 0⟩⟩).2.2.2.2.1,
   (C1_procs_prio_field_count_validation.2
      (fun _ => 0) ⟨fun _ => ⟨0, 0, 0, 0⟩⟩).2.2.2.2.2.2.2.1⟩

/-- Witness for C4: the encoded scenario payload decoded at field count 3
has ptype `PROC_TYPE_APP`. -/
theorem C4_witness :
    (lmkd_pack_get_procprio
        (lmkd_pack_set_procprio (fun _ => 0) ⟨1234, 10000, 900, PROC_TYPE_SERVICE⟩).1
        3).ptype = PROC_TYPE_APP :=
  (C4_procprio_backward_compat (fun _ => 0)).2.2 ⟨1234, 10000, 900, PROC_TYPE_SERVICE⟩

/-- Witness for C7: at field count 6 the batch decode result is -1 or 6/4. -/
theorem C7_witness :
    (lmkd_pack_get_procs_prio (fun _ => 0) ⟨fun _ => ⟨0, 0, 0, 0⟩⟩ 6).1 = -1 ∨
    (lmkd_pack_get_procs_prio (fun _ => 0) ⟨fun _ => ⟨0, 0, 0, 0⟩⟩ 6).1 = 6 / 4 :=
  (C7_single_error_kind (fun _ => 0) ⟨fun _ => ⟨0, 0, 0, 0⟩⟩ 6).2.1

end Lmkd
